import Mathlib

/-!
Verification development for the PDF RAG system
(`rag_system.py`, `interactive_demo.py`, `streamlit_app.py`, `test_pdf_loading.py`).

The repository is a thin orchestration layer over external collaborators
(text splitter, embedding provider, vector store, language model).  The
orchestration logic in `rag_system.py` is embedded directly; the behaviour of
the external collaborators that the design document pins down (the recursive
character chunker, the vector index with persistence, the stuff-chain prompt
assembly) is not present under the repository sources, so those parts are
modelled from the design document and marked as such.

Text is modelled as `List Char`; machine reals used for similarity scores are
modelled as `ℚ` (only ordering of scores matters to the stated properties).
-/

namespace RagSystem

/-! ### Chunker

`rag_system.py` (lines 46-53) configures langchain's
`RecursiveCharacterTextSplitter` with `chunk_size=1000`, `chunk_overlap=200`,
`length_function=len` and calls `split_documents`.  The splitter itself is
library code that is not part of the repository sources. -/

/-- Modelled from the spec: the chunker of §4.1 (the library
`RecursiveCharacterTextSplitter` is not in the repository sources).  A text
that fits in `size` characters is a single chunk; an oversized text is cut
into windows of `size` characters where consecutive windows repeat `overlap`
characters of boundary context, i.e. the window start advances by
`size - overlap`.  The degenerate case `size ≤ overlap` is outside the
spec's precondition and returns the text unsplit. -/
def splitText (size overlap : Nat) (t : List Char) : List (List Char) :=
  if h : t.length ≤ size ∨ size ≤ overlap then [t]
  else t.take size :: splitText size overlap (t.drop (size - overlap))
termination_by t.length
decreasing_by
  push_neg at h
  simp only [List.length_drop]
  omega

/-- Removing the repeated `overlap` characters from every chunk after the
first and concatenating recovers a single text. -/
def joinChunks (overlap : Nat) : List (List Char) → List Char
  | [] => []
  | c :: cs => c ++ (cs.map (List.drop overlap)).flatten

lemma splitText_ne_nil (size overlap : Nat) (t : List Char) :
    splitText size overlap t ≠ [] := by
  rw [splitText]
  split <;> simp

lemma join_map_drop_splitText (size overlap : Nat) (hov : overlap < size)
    (t : List Char) :
    ((splitText size overlap t).map (List.drop overlap)).flatten = t.drop overlap := by
  rw [splitText]
  split
  · simp
  · rename_i h
    push_neg at h
    rw [List.map_cons, List.flatten_cons,
      join_map_drop_splitText size overlap hov (t.drop (size - overlap))]
    rw [List.drop_take, List.drop_drop]
    have h1 : size - overlap + overlap = size := by omega
    rw [h1]
    have h2 : List.drop size t = List.drop (size - overlap) (List.drop overlap t) := by
      rw [List.drop_drop]
      congr 1
      omega
    rw [h2, List.take_append_drop]
termination_by t.length
decreasing_by
  simp only [List.length_drop]
  omega

lemma splitText_chunk_le (size overlap : Nat) (hov : overlap < size)
    (t : List Char) :
    ∀ c ∈ splitText size overlap t, c.length ≤ size := by
  rw [splitText]
  split
  · rename_i h
    rcases h with h | h
    · simp [h]
    · omega
  · rename_i h
    push_neg at h
    intro c hc
    rcases List.mem_cons.mp hc with rfl | hc
    · simp
    · exact splitText_chunk_le size overlap hov (t.drop (size - overlap)) c hc
termination_by t.length
decreasing_by
  simp only [List.length_drop]
  omega

lemma joinChunks_splitText (size overlap : Nat) (hov : overlap < size)
    (t : List Char) :
    joinChunks overlap (splitText size overlap t) = t := by
  rw [splitText]
  split
  · simp [joinChunks]
  · rename_i h
    push_neg at h
    rw [joinChunks, join_map_drop_splitText size overlap hov, List.drop_drop]
    have h1 : size - overlap + overlap = size := by omega
    rw [h1, List.take_append_drop]

/-! ### Data model (`rag_system.py`)

Documents come back from `PyPDFLoader.load()` as page-level records carrying
`page_content` plus `source`/`page` metadata; `split_documents` keeps the
metadata of the page each chunk came from. -/

/-- A page-level document record: `page_content` text plus the metadata keys
(`source`, `page`) that `rag_system.py` and both front ends read. -/
structure Document where
  page_content : List Char
  source : String
  page : Nat
deriving DecidableEq

/-- One `*.pdf` file as the external extractor presents it: a name and the
ordered page texts. -/
structure PDFFile where
  name : String
  pages : List (List Char)
deriving DecidableEq

/-- `split_documents` as configured in `PDFRAGSystem.create_vectorstore`
(rag_system.py lines 46-53): each page is chunked independently and every
chunk keeps its page's metadata. -/
def split_documents (size overlap : Nat) (docs : List Document) : List Document :=
  (docs.map fun d =>
    (splitText size overlap d.page_content).map fun c =>
      { d with page_content := c }).flatten

/-- `chunk_size=1000` (rag_system.py line 47). -/
def chunk_size : Nat := 1000

/-- `chunk_overlap=200` (rag_system.py line 48). -/
def chunk_overlap : Nat := 200

/-- The only error class `rag_system.py` raises is `ValueError`, with a
message. -/
inductive RagError where
  | valueError (msg : String)
deriving DecidableEq

/-- A stored (vector, chunk) pair of the vector index.  Scores and vector
components are modelled as `ℚ`. -/
structure VecRecord where
  vector : List ℚ
  doc : Document
deriving DecidableEq

/-- The in-memory vector store held in `self.vectorstore`. -/
structure Vectorstore where
  records : List VecRecord
deriving DecidableEq

/-- The configuration `setup_qa_chain` (rag_system.py lines 65-91) fixes on
the QA chain it builds. -/
structure QAChain where
  model_name : String
  temperature : ℚ
  search_k : Nat
  return_source_documents : Bool
deriving DecidableEq

/-- The orchestrator state: the two configured directories plus the two
lazily-created collaborator handles (`None` until created). -/
structure PDFRAGSystem where
  pdf_directory : String
  persist_directory : String
  vectorstore : Option Vectorstore
  qa_chain : Option QAChain
deriving DecidableEq

/-! ### Orchestrator operations (`rag_system.py`) -/

/-- `PDFRAGSystem.__init__` (rag_system.py lines 16-23): record the two
directories, leave `vectorstore`/`qa_chain` unset, then raise `ValueError`
when `os.getenv("OPENAI_API_KEY")` is falsy — i.e. when the variable is
unset, or set to the empty string (Python's `not ""` is `True`). -/
def pdfrag_init (env : String → Option String) (pdf_directory : String)
    (persist_directory : String) : Except RagError PDFRAGSystem :=
  let sys : PDFRAGSystem :=
    { pdf_directory := pdf_directory, persist_directory := persist_directory
      vectorstore := none, qa_chain := none }
  match env "OPENAI_API_KEY" with
  | none => .error (.valueError
      "OPENAI_API_KEY environment variable not set. Please set it in .env file or environment.")
  | some v =>
      if v = "" then
        .error (.valueError
          "OPENAI_API_KEY environment variable not set. Please set it in .env file or environment.")
      else
        .ok sys

/-- `PDFRAGSystem.load_pdfs` (rag_system.py lines 25-43): raise `ValueError`
when the glob finds no `*.pdf` file, otherwise extract every file into
page-level documents, in file order. -/
def load_pdfs (sys : PDFRAGSystem) (pdf_files : List PDFFile) :
    Except RagError (List Document) :=
  if pdf_files = [] then
    .error (.valueError ("No PDF files found in " ++ sys.pdf_directory))
  else
    .ok ((pdf_files.map fun f =>
      f.pages.enum.map fun p =>
        { page_content := p.2, source := f.name, page := p.1 }).flatten)

/-- `PDFRAGSystem.create_vectorstore` (rag_system.py lines 45-63): split the
documents with `chunk_size=1000`, `chunk_overlap=200`, embed every chunk and
store the records; the embedding adapter is the external collaborator
`embed`. -/
def create_vectorstore (sys : PDFRAGSystem) (embed : List Char → List ℚ)
    (documents : List Document) : PDFRAGSystem :=
  let splits := split_documents chunk_size chunk_overlap documents
  let vs : Vectorstore :=
    { records := splits.map fun d => { vector := embed d.page_content, doc := d } }
  { sys with vectorstore := some vs }

/-- `k: 4` in `search_kwargs` (rag_system.py line 88). -/
def retriever_search_k : Nat := 4

/-- `temperature=0` on `ChatOpenAI` (rag_system.py line 69). -/
def chat_temperature : ℚ := 0

/-- `model_name="gpt-3.5-turbo"` (rag_system.py line 69). -/
def chat_model_name : String := "gpt-3.5-turbo"

/-- `PDFRAGSystem.setup_qa_chain` (rag_system.py lines 65-93): raise
`ValueError` when no vector store has been created, otherwise build the QA
chain with the fixed configuration. -/
def setup_qa_chain (sys : PDFRAGSystem) : Except RagError PDFRAGSystem :=
  match sys.vectorstore with
  | none => .error (.valueError
      "Vector store not initialized. Call create_vectorstore first.")
  | some _ =>
      let chain : QAChain :=
        { model_name := chat_model_name, temperature := chat_temperature,
          search_k := retriever_search_k, return_source_documents := true }
      .ok { sys with qa_chain := some chain }

/-- `PDFRAGSystem.ask_question` (rag_system.py lines 95-100): raise
`ValueError` when the QA chain has not been set up, otherwise run the chain
(retrieval plus language-model call, an external collaborator `run`). -/
def ask_question (sys : PDFRAGSystem) (run : QAChain → String → String)
    (question : String) : Except RagError String :=
  match sys.qa_chain with
  | none => .error (.valueError
      "QA chain not initialized. Call setup_qa_chain first.")
  | some chain => .ok (run chain question)

/-- `PDFRAGSystem.initialize` (rag_system.py lines 102-108):
`load_pdfs` then `create_vectorstore` then `setup_qa_chain`, each step only
reached when the previous one succeeded. -/
def initializeSystem (sys : PDFRAGSystem) (pdf_files : List PDFFile)
    (embed : List Char → List ℚ) : Except RagError PDFRAGSystem := do
  let documents ← load_pdfs sys pdf_files
  let sys1 := create_vectorstore sys embed documents
  setup_qa_chain sys1

/-- The orchestrator is READY exactly when the QA chain exists: `ask_question`
gates on `self.qa_chain is None` and `setup_qa_chain` is the last step of
`initialize` (and of the load path of `main`/`interactive_demo.py`). -/
def READY (sys : PDFRAGSystem) : Prop := sys.qa_chain.isSome

/-! ### Vector index with persistence

The vector store used by the repository is Chroma, an external library whose
build/load/query internals are not part of the repository sources (the sources
only call `Chroma.from_documents`, `Chroma(client=..., ...)` and
`as_retriever`).  These operations are therefore modelled from the design
document, §4.2 and §6. -/

/-- The embedding-model identity the snapshot must record: dimension plus a
model tag (spec §6). -/
structure EmbeddingAdapter where
  dim : Nat
  model_tag : String
deriving DecidableEq

/-- Modelled from the spec (§3, §6): the durable snapshot holds every vector
record plus the embedding-model identity. -/
structure Snapshot where
  dim : Nat
  model_tag : String
  records : List VecRecord
deriving DecidableEq

/-- The two load-time failures of spec §4.2 / §7. -/
inductive LoadError where
  | snapshotNotFound
  | snapshotCorrupt
deriving DecidableEq

/-- A handle to a loaded snapshot, queryable without re-embedding. -/
structure Handle where
  records : List VecRecord
deriving DecidableEq

/-- Modelled from the spec (§4.2 `build`): persist the records together with
the active adapter's identity; an existing snapshot at the location is
overwritten. -/
def buildSnapshot (adapter : EmbeddingAdapter) (records : List VecRecord) :
    Snapshot :=
  { dim := adapter.dim, model_tag := adapter.model_tag, records := records }

/-- Modelled from the spec (§4.2 `load`): `SnapshotNotFoundError` when no
snapshot exists at the location, `SnapshotCorruptError` when the stored
embedding-model identity does not match the adapter in use. -/
def loadSnapshot (location : Option Snapshot) (adapter : EmbeddingAdapter) :
    Except LoadError Handle :=
  match location with
  | none => .error .snapshotNotFound
  | some s =>
      if s.dim = adapter.dim ∧ s.model_tag = adapter.model_tag then
        .ok { records := s.records }
      else
        .error .snapshotCorrupt

/-- Scored records compare by score, higher similarity first. -/
def scoreGE (a b : VecRecord × ℚ) : Prop := b.2 ≤ a.2

instance : DecidableRel scoreGE := fun a b => inferInstanceAs (Decidable (b.2 ≤ a.2))

instance : IsTotal (VecRecord × ℚ) scoreGE := ⟨fun a b => le_total b.2 a.2⟩

instance : IsTrans (VecRecord × ℚ) scoreGE := ⟨fun _ _ _ h1 h2 => le_trans h2 h1⟩

/-- Modelled from the spec (§4.2 `query`): score every stored record against
the query vector by the similarity function, order highest-first (a stable
sort keeps ties in insertion order) and return the first `k`.  The similarity
function is the external collaborator's; only the ordering of scores matters
to the stated properties. -/
def queryIndex (records : List VecRecord) (sim : List ℚ → List ℚ → ℚ)
    (query_vector : List ℚ) (k : Nat) : List (VecRecord × ℚ) :=
  (List.insertionSort scoreGE
    (records.map fun r => (r, sim query_vector r.vector))).take k

/-! ### Answer synthesizer prompt (`rag_system.py` lines 65-93)

The template string is from the source; the `stuff` chain that substitutes
the retrieved passages into it is langchain library code, so the substitution
itself is modelled from the spec (§4.4: a single prompt concatenating all
passage texts in the order supplied by the retriever). -/

/-- One piece of a parsed prompt template: literal text or a named
substitution field. -/
inductive TemplatePart where
  | lit (s : String)
  | var (name : String)

/-- The template of `setup_qa_chain` (rag_system.py lines 71-78), parsed at
its two `input_variables` (`context`, `question`). -/
def qa_template_parts : List TemplatePart :=
  [ .lit "Use the following pieces of context to answer the question at the end. \nIf you don't know the answer, just say that you don't know, don't try to make up an answer.\n\nContext: ",
    .var "context",
    .lit "\n\nQuestion: ",
    .var "question",
    .lit "\n\nAnswer: " ]

/-- The raw template string of `setup_qa_chain` (rag_system.py lines 71-78). -/
def qa_template : String :=
  "Use the following pieces of context to answer the question at the end. \nIf you don't know the answer, just say that you don't know, don't try to make up an answer.\n\nContext: \x7bcontext\x7d\n\nQuestion: \x7bquestion\x7d\n\nAnswer: "

/-- Render one template part under an assignment of the fields. -/
def renderPart (assign : String → String) : TemplatePart → String
  | .lit s => s
  | .var n => assign n

/-- Render a parsed template under an assignment of the fields (every field
is substituted in one pass, as Python f-string formatting does). -/
def renderParts (assign : String → String) : List TemplatePart → String
  | [] => ""
  | p :: rest => renderPart assign p ++ renderParts assign rest

/-- Modelled from the spec (§4.4): the `stuff` chain joins the retrieved
passage texts, in retriever order, and formats the prompt template with them
as `context` and the user's question as `question`. -/
def stuff_prompt (passages : List String) (question : String) : String :=
  renderParts
    (fun n => if n = "context" then String.intercalate "\n\n" passages
              else if n = "question" then question else "")
    qa_template_parts

/-! ### Further chunker lemmas -/

lemma take_getD_zero_splitText (size overlap : Nat) (hov : overlap < size)
    (t : List Char) :
    ((splitText size overlap t).getD 0 []).take overlap = t.take overlap := by
  rw [splitText]
  split
  · simp
  · rw [List.getD_cons_zero, List.take_take, inf_eq_left.mpr hov.le]

lemma chunk_length_gt_overlap (size overlap : Nat) (hov : overlap < size)
    (t : List Char) (ht : overlap < t.length) :
    ∀ c ∈ splitText size overlap t, overlap < c.length := by
  rw [splitText]
  split
  · intro c hc
    rw [List.mem_singleton] at hc
    subst hc
    exact ht
  · rename_i h
    push_neg at h
    intro c hc
    rcases List.mem_cons.mp hc with rfl | hc
    · rw [List.length_take]
      omega
    · refine chunk_length_gt_overlap size overlap hov _ ?_ c hc
      simp only [List.length_drop]
      omega
termination_by t.length
decreasing_by
  simp only [List.length_drop]
  omega

lemma splitText_two_chunks (size overlap : Nat) (t : List Char)
    (h2 : 1 < (splitText size overlap t).length) :
    size < t.length ∧ overlap < size := by
  rw [splitText] at h2
  split at h2
  · simp at h2
  · rename_i h
    push_neg at h
    exact h

lemma splitText_consecutive_take_drop (size overlap : Nat) (hov : overlap < size)
    (t : List Char) :
    ∀ i, i + 1 < (splitText size overlap t).length →
      ((splitText size overlap t).getD (i + 1) []).take overlap =
      ((splitText size overlap t).getD i []).drop (size - overlap) := by
  by_cases hc : t.length ≤ size ∨ size ≤ overlap
  · intro i hi
    rw [splitText, dif_pos hc] at hi
    simp at hi
  · intro i hi
    rw [splitText, dif_neg hc] at hi ⊢
    push_neg at hc
    cases i with
    | zero =>
        rw [List.getD_cons_succ, List.getD_cons_zero,
          take_getD_zero_splitText size overlap hov, List.drop_take]
        congr 1
        omega
    | succ j =>
        rw [List.getD_cons_succ, List.getD_cons_succ]
        refine splitText_consecutive_take_drop size overlap hov
          (t.drop (size - overlap)) j ?_
        simp only [List.length_cons] at hi
        omega
termination_by t.length
decreasing_by
  simp only [List.length_drop]
  omega

/-! ### Claim theorems -/

/-- C1: for every index state and query, retrieval returns at most `k` scored
results, with similarity scores in non-increasing order, and never more
results than there are records in the index; the `k` the system configures
(`search_kwargs` of `setup_qa_chain`) is 4. -/
theorem retrieval_topk_sorted :
    (∀ (sys sys' : PDFRAGSystem) (c : QAChain),
      setup_qa_chain sys = .ok sys' → sys'.qa_chain = some c → c.search_k = 4) ∧
    ∀ (records : List VecRecord) (sim : List ℚ → List ℚ → ℚ)
      (qv : List ℚ) (k : Nat),
      (queryIndex records sim qv k).length ≤ k ∧
      (queryIndex records sim qv k).length ≤ records.length ∧
      (queryIndex records sim qv k).Pairwise (fun a b => b.2 ≤ a.2) := by
  constructor
  · intro sys sys' c h hc
    cases hvs : sys.vectorstore with
    | none => rw [setup_qa_chain, hvs] at h; cases h
    | some vs =>
        rw [setup_qa_chain, hvs] at h
        cases h
        simp only [Option.some.injEq] at hc
        rw [← hc]
        rfl
  · intro records sim qv k
    have hlen : (queryIndex records sim qv k).length = min k records.length := by
      simp [queryIndex, List.length_take, List.length_insertionSort]
    refine ⟨?_, ?_, ?_⟩
    · rw [hlen]; exact Nat.min_le_left _ _
    · rw [hlen]; exact Nat.min_le_right _ _
    · exact List.Pairwise.sublist (List.take_sublist _ _)
        (List.sorted_insertionSort scoreGE _)

/-- C1 witness: the chain built over a concrete one-record-free store carries
`search_k = 4`. -/
theorem retrieval_topk_sorted_witness :
    ({ model_name := "gpt-3.5-turbo", temperature := 0, search_k := 4,
       return_source_documents := true } : QAChain).search_k = 4 :=
  retrieval_topk_sorted.1
    { pdf_directory := ".", persist_directory := "./chroma_db",
      vectorstore := some { records := [] }, qa_chain := none }
    { pdf_directory := ".", persist_directory := "./chroma_db",
      vectorstore := some { records := [] },
      qa_chain := some { model_name := "gpt-3.5-turbo", temperature := 0,
                         search_k := 4, return_source_documents := true } }
    { model_name := "gpt-3.5-turbo", temperature := 0, search_k := 4,
      return_source_documents := true }
    rfl rfl

/-- C2: for every text and every valid `(chunk_size, chunk_overlap)` pair,
every chunk is at most `chunk_size` long, and concatenating the chunks with
the overlap regions removed reconstructs the text exactly. -/
theorem chunker_bound_and_reconstruction (size overlap : Nat) (t : List Char)
    (h1 : 0 < overlap) (h2 : overlap < size) :
    (∀ c ∈ splitText size overlap t, c.length ≤ size) ∧
    joinChunks overlap (splitText size overlap t) = t :=
  ⟨splitText_chunk_le size overlap h2 t, joinChunks_splitText size overlap h2 t⟩

/-- C2 witness: reconstruction of a concrete 7-character text split with
`size = 5`, `overlap = 2`. -/
theorem chunker_bound_and_reconstruction_witness :
    joinChunks 2 (splitText 5 2 ['a','b','c','d','e','f','g']) =
      ['a','b','c','d','e','f','g'] :=
  (chunker_bound_and_reconstruction 5 2 ['a','b','c','d','e','f','g']
    (by decide) (by decide)).2

/-- C3: loading from a location with no snapshot fails with
`SnapshotNotFoundError`; loading a snapshot whose stored embedding identity
(dimension or model tag) does not match the adapter in use fails with
`SnapshotCorruptError`; in particular a snapshot built with dimension 1536
loaded by a dimension-768 adapter fails with `SnapshotCorruptError`. -/
theorem load_error_discrimination :
    (∀ adapter, loadSnapshot none adapter = .error .snapshotNotFound) ∧
    (∀ (s : Snapshot) (adapter : EmbeddingAdapter),
      s.dim ≠ adapter.dim ∨ s.model_tag ≠ adapter.model_tag →
      loadSnapshot (some s) adapter = .error .snapshotCorrupt) ∧
    (∀ (records : List VecRecord) (tag : String),
      loadSnapshot (some (buildSnapshot { dim := 1536, model_tag := tag } records))
        { dim := 768, model_tag := tag } = .error .snapshotCorrupt) := by
  refine ⟨fun _ => rfl, ?_, ?_⟩
  · intro s adapter hd
    have hne : ¬(s.dim = adapter.dim ∧ s.model_tag = adapter.model_tag) := by
      tauto
    simp [loadSnapshot, hne]
  · intro records tag
    simp [loadSnapshot, buildSnapshot]

/-- C3 witness: a concrete dimension-1536 snapshot loaded by a dimension-768
adapter is rejected as corrupt, and so is a tag-only mismatch with equal
dimensions. -/
theorem load_error_discrimination_witness :
    loadSnapshot
      (some { dim := 1536, model_tag := "text-embedding-ada-002", records := [] })
      { dim := 768, model_tag := "text-embedding-ada-002" } =
      .error .snapshotCorrupt ∧
    loadSnapshot
      (some { dim := 1536, model_tag := "text-embedding-ada-002", records := [] })
      { dim := 1536, model_tag := "text-embedding-3-small" } =
      .error .snapshotCorrupt :=
  ⟨load_error_discrimination.2.1
    { dim := 1536, model_tag := "text-embedding-ada-002", records := [] }
    { dim := 768, model_tag := "text-embedding-ada-002" }
    (Or.inl (by decide)),
   load_error_discrimination.2.1
    { dim := 1536, model_tag := "text-embedding-ada-002", records := [] }
    { dim := 1536, model_tag := "text-embedding-3-small" }
    (Or.inr (by decide))⟩

/-- C4: for every question, calling `ask_question` before the pipeline is
READY (`qa_chain` not yet set up) fails with the not-initialized
`ValueError`, and no answer is produced. -/
theorem ask_before_ready_fails (sys : PDFRAGSystem)
    (run : QAChain → String → String) (question : String)
    (h : ¬ READY sys) :
    ask_question sys run question = .error (.valueError
      "QA chain not initialized. Call setup_qa_chain first.") ∧
    ∀ answer, ask_question sys run question ≠ .ok answer := by
  have hn : sys.qa_chain = none := by
    cases hq : sys.qa_chain with
    | none => rfl
    | some c => exact absurd (by simp [READY, hq]) h
  rw [ask_question, hn]
  exact ⟨rfl, fun answer h' => by cases h'⟩

/-- C4 witness: a freshly constructed system (no QA chain) rejects a concrete
question. -/
theorem ask_before_ready_fails_witness :
    ask_question
      { pdf_directory := ".", persist_directory := "./chroma_db",
        vectorstore := none, qa_chain := none }
      (fun _ _ => "") "What is causal component analysis?" =
      .error (.valueError
        "QA chain not initialized. Call setup_qa_chain first.") :=
  (ask_before_ready_fails
    { pdf_directory := ".", persist_directory := "./chroma_db",
      vectorstore := none, qa_chain := none }
    (fun _ _ => "") "What is causal component analysis?" (by simp [READY])).1

/-- C5: with an empty corpus, initialization fails with the no-PDFs
`ValueError` and never yields a READY system. -/
theorem empty_corpus_init_fails (sys : PDFRAGSystem)
    (embed : List Char → List ℚ) (pdf_files : List PDFFile)
    (h : pdf_files = []) :
    initializeSystem sys pdf_files embed =
      .error (.valueError ("No PDF files found in " ++ sys.pdf_directory)) ∧
    ∀ sys', initializeSystem sys pdf_files embed ≠ .ok sys' := by
  subst h
  have herr : initializeSystem sys [] embed =
      .error (.valueError ("No PDF files found in " ++ sys.pdf_directory)) := rfl
  exact ⟨herr, fun sys' h' => by rw [herr] at h'; cases h'⟩

/-- C5 witness: a concrete system with no PDF files fails initialization. -/
theorem empty_corpus_init_fails_witness :
    initializeSystem
      { pdf_directory := ".", persist_directory := "./chroma_db",
        vectorstore := none, qa_chain := none }
      [] (fun _ => []) =
      .error (.valueError "No PDF files found in .") :=
  (empty_corpus_init_fails
    { pdf_directory := ".", persist_directory := "./chroma_db",
      vectorstore := none, qa_chain := none }
    (fun _ => []) [] rfl).1

/-- C6: any two consecutive chunks split from the same text share the
`overlap` trailing/leading characters, and the shared block is exactly
`overlap` characters long. -/
theorem consecutive_chunks_share_overlap (size overlap : Nat) (t : List Char)
    (hov : overlap < size) (i : Nat)
    (hi : i + 1 < (splitText size overlap t).length) :
    ((splitText size overlap t).getD (i + 1) []).take overlap =
      ((splitText size overlap t).getD i []).drop (size - overlap) ∧
    (((splitText size overlap t).getD (i + 1) []).take overlap).length =
      overlap := by
  refine ⟨splitText_consecutive_take_drop size overlap hov t i hi, ?_⟩
  have h2 := splitText_two_chunks size overlap t (by omega)
  have hmem : (splitText size overlap t).getD (i + 1) [] ∈
      splitText size overlap t := by
    rw [List.getD_eq_getElem _ _ hi]
    exact List.getElem_mem hi
  have hlen := chunk_length_gt_overlap size overlap hov t (by omega) _ hmem
  rw [List.length_take]
  omega

/-- C6 witness: `splitText 3 1 "abcde" = ["abc", "cde"]`; the two chunks
share the one character `c`. -/
theorem consecutive_chunks_share_overlap_witness :
    ((splitText 3 1 ['a','b','c','d','e']).getD 1 []).take 1 =
      ((splitText 3 1 ['a','b','c','d','e']).getD 0 []).drop 2 ∧
    (((splitText 3 1 ['a','b','c','d','e']).getD 1 []).take 1).length = 1 :=
  consecutive_chunks_share_overlap 3 1 ['a','b','c','d','e'] (by decide) 0
    (by simp +decide [splitText.eq_def])

/-- C7: building a snapshot at a location and loading it back with the same
adapter succeeds and yields an index whose query results, for every query
vector and `k`, are identical to querying the just-built in-memory records. -/
theorem build_load_roundtrip (adapter : EmbeddingAdapter)
    (records : List VecRecord) (sim : List ℚ → List ℚ → ℚ)
    (qv : List ℚ) (k : Nat) :
    loadSnapshot (some (buildSnapshot adapter records)) adapter =
      .ok { records := records } ∧
    ∀ h, loadSnapshot (some (buildSnapshot adapter records)) adapter = .ok h →
      queryIndex h.records sim qv k = queryIndex records sim qv k := by
  have hload : loadSnapshot (some (buildSnapshot adapter records)) adapter =
      .ok { records := records } := by
    simp [loadSnapshot, buildSnapshot]
  refine ⟨hload, fun h hh => ?_⟩
  rw [hload] at hh
  cases hh
  rfl

/-- C7 witness: round trip on a concrete empty index with a concrete
adapter. -/
theorem build_load_roundtrip_witness :
    queryIndex (Handle.records { records := [] }) (fun _ _ => 0) [] 4 =
      queryIndex [] (fun _ _ => 0) [] 4 :=
  (build_load_roundtrip { dim := 1536, model_tag := "text-embedding-ada-002" }
    [] (fun _ _ => 0) [] 4).2 { records := [] }
    (build_load_roundtrip { dim := 1536, model_tag := "text-embedding-ada-002" }
      [] (fun _ _ => 0) [] 4).1

/-- C8: chunking is deterministic — two runs on equal
`(pages, chunk_size, chunk_overlap)` inputs yield equal chunk sequences. -/
theorem chunking_deterministic (size₁ size₂ overlap₁ overlap₂ : Nat)
    (docs₁ docs₂ : List Document)
    (hs : size₁ = size₂) (ho : overlap₁ = overlap₂) (hd : docs₁ = docs₂) :
    split_documents size₁ overlap₁ docs₁ = split_documents size₂ overlap₂ docs₂ := by
  subst hs
  subst ho
  subst hd
  rfl

/-- C8 witness: two runs on one concrete page with the configured
`chunk_size`/`chunk_overlap`. -/
theorem chunking_deterministic_witness :
    split_documents 1000 200 [{ page_content := ['h','i'], source := "a.pdf", page := 0 }] =
      split_documents 1000 200 [{ page_content := ['h','i'], source := "a.pdf", page := 0 }] :=
  chunking_deterministic 1000 1000 200 200
    [{ page_content := ['h','i'], source := "a.pdf", page := 0 }]
    [{ page_content := ['h','i'], source := "a.pdf", page := 0 }]
    rfl rfl rfl

set_option maxRecDepth 8000 in
/-- C9: the synthesizer builds one prompt that places the passage texts,
joined in retriever order, and the question into the fixed instruction
template of `setup_qa_chain` (which directs the model to use only the given
context and to say it does not know otherwise), and the language model is
configured with temperature 0. -/
theorem stuff_prompt_contract (passages : List String) (question : String) :
    chat_temperature = 0 ∧
    renderParts (fun n => "\x7b" ++ n ++ "\x7d") qa_template_parts = qa_template ∧
    stuff_prompt passages question =
      "Use the following pieces of context to answer the question at the end. \nIf you don't know the answer, just say that you don't know, don't try to make up an answer.\n\nContext: "
        ++ String.intercalate "\n\n" passages
        ++ "\n\nQuestion: " ++ question ++ "\n\nAnswer: " := by
  refine ⟨rfl, by decide, ?_⟩
  simp [stuff_prompt, qa_template_parts, renderParts, renderPart,
    String.append_assoc]

/-- C10 counterexample: the environment variable is *set* (to the empty
string) yet construction still fails, because `not os.getenv(...)` is true
for the empty string. -/
theorem init_fails_on_empty_api_key :
    (fun _ : String => some "") "OPENAI_API_KEY" = some "" ∧
    pdfrag_init (fun _ => some "") "." "./chroma_db" =
      .error (.valueError
        "OPENAI_API_KEY environment variable not set. Please set it in .env file or environment.") :=
  ⟨rfl, rfl⟩

/-- C10 (amended): construction fails immediately when `OPENAI_API_KEY` is
unset *or set to the empty string*, before any other operation runs; when it
is set to a non-empty value, construction succeeds with no vector store and
no QA chain. -/
theorem init_checks_api_key (env : String → Option String) (d p : String) :
    ((env "OPENAI_API_KEY" = none ∨ env "OPENAI_API_KEY" = some "") →
      pdfrag_init env d p = .error (.valueError
        "OPENAI_API_KEY environment variable not set. Please set it in .env file or environment.")) ∧
    (∀ v, env "OPENAI_API_KEY" = some v → v ≠ "" →
      pdfrag_init env d p = .ok
        { pdf_directory := d, persist_directory := p,
          vectorstore := none, qa_chain := none }) := by
  constructor
  · rintro (h | h) <;> simp [pdfrag_init, h]
  · intro v hv hne
    simp [pdfrag_init, hv, hne]

/-- C10 witness: concrete unset environment fails; concrete non-empty key
succeeds with both collaborator handles unset. -/
theorem init_checks_api_key_witness :
    pdfrag_init (fun _ => none) "." "./chroma_db" =
      .error (.valueError
        "OPENAI_API_KEY environment variable not set. Please set it in .env file or environment.") ∧
    pdfrag_init (fun _ => some "sk-test") "." "./chroma_db" =
      .ok { pdf_directory := ".", persist_directory := "./chroma_db",
            vectorstore := none, qa_chain := none } :=
  ⟨(init_checks_api_key (fun _ => none) "." "./chroma_db").1 (Or.inl rfl),
   (init_checks_api_key (fun _ => some "sk-test") "." "./chroma_db").2
     "sk-test" rfl (by decide)⟩

end RagSystem
